import Mathlib

/-!
Verification of the PharmaGaurd pharmacogenomics risk engine.

Numeric code is modelled over `ℚ` (the engine's decimal constants are exact
rationals; the proofs below do not depend on binary floating-point artefacts).
Python's `round(x, 4)` (banker's rounding) is modelled as nearest-integer
rounding at 4 decimal places; the two agree except exactly at half-ulp ties,
and no bound proved here depends on the tie direction.
-/

namespace PharmaGuard

/-- Clamp a rational to the unit interval, as `max(0.0, min(1.0, x))`. -/
def clamp01 (x : ℚ) : ℚ := max 0 (min 1 x)

/-- Python `round(x, 4)`: round to 4 decimal places. -/
def round4 (x : ℚ) : ℚ := (round (x * 10000) : ℚ) / 10000

theorem round_rat_mono {x y : ℚ} (h : x ≤ y) : round x ≤ round y := by
  rw [round_eq, round_eq]
  exact Int.floor_mono (by linarith)

theorem round4_mono {x y : ℚ} (h : x ≤ y) : round4 x ≤ round4 y := by
  unfold round4
  have : round (x * 10000) ≤ round (y * 10000) := round_rat_mono (by linarith)
  have hc : ((round (x * 10000) : ℤ) : ℚ) ≤ ((round (y * 10000) : ℤ) : ℚ) := by
    exact_mod_cast this
  linarith

theorem round4_zero : round4 0 = 0 := by
  unfold round4
  norm_num

theorem round4_one : round4 1 = 1 := by
  unfold round4
  norm_num [round_eq]

theorem round4_half : round4 (1/2) = 1/2 := by
  unfold round4
  norm_num [round_eq]

theorem round4_seven_tenths : round4 (7/10) = 7/10 := by
  unfold round4
  norm_num [round_eq]

/-! ### C1 — `ConfidenceBreakdown.final`
Translated from `backend/app/services/pharmacogenomics/confidence.py`,
`final` property (quoted in full in `FIX_SUMMARY.md`, lines 30-53).
The breakdown carries the multiplicative `classification_confidence`, the
phenotype-resolution signal and the automation gate's `allowed` flag. -/

structure ConfidenceBreakdown where
  classification_confidence : ℚ
  phenotype_confidence : ℚ
  automation_allowed : Bool

/-- `ConfidenceBreakdown.final` from `confidence.py`:
`phenotype_cap = 0.50 if phenotype_confidence == 0 else 1.0`,
`automation_cap = 0.70 if not allowed else 1.0`,
`final = max(0.0, min(1.0, round(min(base, phenotype_cap, automation_cap), 4)))`. -/
def ConfidenceBreakdown.final (cb : ConfidenceBreakdown) : ℚ :=
  let base_confidence := cb.classification_confidence
  let phenotype_cap : ℚ := if cb.phenotype_confidence = 0 then 1/2 else 1
  let automation_cap : ℚ := if cb.automation_allowed then 1 else 7/10
  let final_confidence := min base_confidence (min phenotype_cap automation_cap)
  max 0 (min 1 (round4 final_confidence))

/-- The spec's reading of the same computation: take the minimum of the
multiplicative base and the caps that actually apply, clamp to `[0,1]`,
round to 4 decimal places. -/
def specFinalConfidence (base pheno : ℚ) (allowed : Bool) : ℚ :=
  let caps : List ℚ :=
    (if pheno = 0 then [1/2] else []) ++ (if allowed then [] else [7/10])
  round4 (clamp01 (caps.foldl min base))

example :
    ConfidenceBreakdown.final ⟨1, 0, false⟩ = 1/2 := by
  norm_num [ConfidenceBreakdown.final, round4, round_eq]

example :
    ConfidenceBreakdown.final ⟨1, 1, true⟩ = 1 := by
  norm_num [ConfidenceBreakdown.final, round4, round_eq]

/-- For `m ≤ 1`, rounding before clamping (as the code does) agrees with
clamping before rounding (as the spec reads). -/
theorem clamp_round4_comm {m : ℚ} (hm : m ≤ 1) :
    max 0 (min 1 (round4 m)) = round4 (max 0 (min 1 m)) := by
  rw [min_eq_right hm]
  rcases le_or_lt 0 m with h0 | h0
  · rw [max_eq_right h0]
    have h1 : round4 m ≤ 1 := round4_one ▸ round4_mono hm
    have h2 : 0 ≤ round4 m := round4_zero ▸ round4_mono h0
    rw [min_eq_right h1, max_eq_right h2]
  · have h1 : round4 m ≤ 0 := round4_zero ▸ round4_mono h0.le
    rw [max_eq_left (by linarith : m ≤ 0), round4_zero,
      min_eq_right (by linarith : round4 m ≤ 1), max_eq_left h1]

/-- C1: for every produced assessment, the final confidence equals the minimum
of the multiplicative base and the applicable caps, clamped to `[0,1]` and
rounded to 4 decimal places; it is at most `0.50` whenever the phenotype
confidence signal is `0`, and at most `0.70` whenever the automation gate is
not allowed. -/
theorem C1_confidence_final_caps (cb : ConfidenceBreakdown) :
    cb.final = specFinalConfidence cb.classification_confidence
        cb.phenotype_confidence cb.automation_allowed ∧
    0 ≤ cb.final ∧ cb.final ≤ 1 ∧
    (cb.phenotype_confidence = 0 → cb.final ≤ 1/2) ∧
    (cb.automation_allowed = false → cb.final ≤ 7/10) := by
  obtain ⟨base, pheno, allowed⟩ := cb
  refine ⟨?_, le_max_left _ _, max_le (by norm_num) (min_le_left _ _), ?_, ?_⟩
  · by_cases hp : pheno = 0 <;> cases allowed <;>
      simp only [ConfidenceBreakdown.final, specFinalConfidence, clamp01, hp,
        ite_true, ite_false, Bool.false_eq_true, List.cons_append,
        List.nil_append, List.append_nil, List.foldl_cons, List.foldl_nil]
    · rw [min_assoc]
      exact clamp_round4_comm (le_trans (min_le_right _ _) (by norm_num))
    · rw [show ((1:ℚ)/2) ⊓ 1 = 1/2 by norm_num]
      exact clamp_round4_comm (le_trans (min_le_right _ _) (by norm_num))
    · rw [show (1:ℚ) ⊓ (7/10) = 7/10 by norm_num]
      exact clamp_round4_comm (le_trans (min_le_right _ _) (by norm_num))
    · rw [show (1:ℚ) ⊓ 1 = 1 by norm_num,
        clamp_round4_comm (min_le_right base 1), ← min_assoc,
        min_eq_left (min_le_left (1:ℚ) base)]
  · intro hp
    simp only [ConfidenceBreakdown.final]
    have hm : min base (min (if pheno = 0 then (1/2 : ℚ) else 1)
        (if allowed then 1 else 7/10)) ≤ 1/2 := by
      rw [if_pos hp]
      exact le_trans (min_le_right _ _) (min_le_left _ _)
    have h2 := round4_mono hm
    rw [round4_half] at h2
    exact max_le (by norm_num) (le_trans (min_le_right _ _) h2)
  · intro ha
    simp only [ConfidenceBreakdown.final]
    have hm : min base (min (if pheno = 0 then (1/2 : ℚ) else 1)
        (if allowed then 1 else 7/10)) ≤ 7/10 := by
      have hna : ¬(allowed = true) := by
        simp [show allowed = false from ha]
      rw [if_neg hna]
      exact le_trans (min_le_right _ _) (min_le_right _ _)
    have h2 := round4_mono hm
    rw [round4_seven_tenths] at h2
    exact max_le (by norm_num) (le_trans (min_le_right _ _) h2)

theorem C1_confidence_final_caps_witness :
    ConfidenceBreakdown.final ⟨1, 0, false⟩ ≤ 1/2 ∧
    ConfidenceBreakdown.final ⟨1, 0, false⟩ ≤ 7/10 :=
  ⟨(C1_confidence_final_caps ⟨1, 0, false⟩).2.2.2.1 rfl,
   (C1_confidence_final_caps ⟨1, 0, false⟩).2.2.2.2 rfl⟩

/-! ### C2 — `_classify_association`
Translated from `backend/app/services/pharmacogenomics/pharmgkb_loader.py`,
quoted in full in `FIX_SUMMARY.md` lines 99-141 and
`COMPLETE_FIX_SUMMARY.md` lines 68-93.  Python's `"Guideline" in et` is a
substring test; the raw associations set is modelled as a list with exact
string membership. -/

/-- Python's `needle in hay` substring containment on strings. -/
def strContainsSub (hay needle : String) : Bool :=
  (List.range (hay.toList.length + 1)).any fun i =>
    needle.toList.isPrefixOf (hay.toList.drop i)

def _classify_association (confirmed : Bool) (evidence_level : String)
    (evidence_types : List String) (raw_associations : List String) : String :=
  if confirmed = false then "unconfirmed"
  else if "associated" ∈ raw_associations ∧
      "not associated" ∈ raw_associations then "conflicting"
  else if (evidence_level = "1A" ∨ evidence_level = "1B") ∧
      evidence_types.any (fun et => strContainsSub et "Guideline") = true then
    "established"
  else if evidence_level = "2A" ∨ evidence_level = "2B" then "moderate"
  else if evidence_level = "3" ∧ 3 ≤ evidence_types.length then "emerging"
  else "limited"

/-- The claim's wording of the same decision tree: the two highest defined
levels are 1A/1B, the next tier is 2A/2B, the lower tier is level 3; a
guideline-type evidence item is one whose type contains "Guideline". -/
def classifyAssociationSpec (confirmed : Bool) (evidence_level : String)
    (evidence_types : List String) (raw_associations : List String) : String :=
  if confirmed = false then "unconfirmed"
  else if "associated" ∈ raw_associations ∧
      "not associated" ∈ raw_associations then "conflicting"
  else if evidence_level ∈ ["1A", "1B"] ∧
      (∃ et ∈ evidence_types, strContainsSub et "Guideline" = true) then
    "established"
  else if evidence_level ∈ ["2A", "2B"] then "moderate"
  else if evidence_level = "3" ∧ 3 ≤ evidence_types.length then "emerging"
  else "limited"

example :
    _classify_association true "1A"
      ["ClinicalAnnotation", "GuidelineAnnotation"] ["ambiguous"] =
    "established" := by decide

example :
    _classify_association true "2A" ["ClinicalAnnotation"]
      ["associated", "not associated"] = "conflicting" := by decide

/-- C2: the association classification is exactly the claimed decision tree,
evaluated in the claimed fixed order. -/
theorem C2_classify_association_tree (confirmed : Bool)
    (evidence_level : String) (evidence_types : List String)
    (raw_associations : List String) :
    _classify_association confirmed evidence_level evidence_types
        raw_associations =
    classifyAssociationSpec confirmed evidence_level evidence_types
        raw_associations := by
  simp only [_classify_association, classifyAssociationSpec,
    List.mem_cons, List.mem_singleton, List.not_mem_nil, or_false,
    List.any_eq_true]

/-! ### C3 — `harmonize_annotation_associations`
Translated from `backend/app/services/pharmacogenomics/pharmgkb_loader.py`,
quoted in full in `ASSOCIATION_HARMONIZATION_FIX.md` lines 100-154.
A clinical annotation dict is modelled by its identifier and the two fields
the function reads or writes; Python's truthiness test on
`ann.get("evidence_type")` is modelled as a non-empty string. -/

/-- ASCII lower-casing of one character, as Python's `str.lower` acts on the
ASCII letters appearing in the association labels. -/
def lowerChar (c : Char) : Char :=
  if 'A' ≤ c ∧ c ≤ 'Z' then Char.ofNat (c.toNat + 32) else c

/-- Python's `s.lower()` on the (ASCII) association strings. -/
def pyLower (s : String) : String := ⟨s.data.map lowerChar⟩

example : pyLower "Ambiguous" = "ambiguous" := by decide

structure ClinAnn where
  annotation_id : String
  evidence_type : String
  association : String
  deriving DecidableEq

/-- The per-annotation body of the harmonization loop. -/
def harmonizeOne (ann : ClinAnn) : ClinAnn :=
  let raw_assoc := pyLower ann.association
  if raw_assoc = "associated" ∨ raw_assoc = "ambiguous" then
    { ann with association := "supporting" }
  else if raw_assoc = "not associated" then
    { ann with association := "not associated" }
  else if ann.evidence_type ≠ "" then
    { ann with association := "supporting" }
  else ann

def harmonize_annotation_associations (clinical_annotations : List ClinAnn)
    (top_level_association : String) : List ClinAnn :=
  if clinical_annotations.isEmpty then []
  else
    let harmonized_associations : List String :=
      ["established", "moderate", "emerging", "limited"]
    if top_level_association ∉ harmonized_associations then
      clinical_annotations
    else
      clinical_annotations.map harmonizeOne

theorem harmonize_eq_map (anns : List ClinAnn) (top : String)
    (hmem : top ∈ ["established", "moderate", "emerging", "limited"]) :
    harmonize_annotation_associations anns top = anns.map harmonizeOne := by
  cases anns with
  | nil => simp [harmonize_annotation_associations]
  | cons a as =>
    simp only [harmonize_annotation_associations, List.isEmpty_cons,
      Bool.false_eq_true, if_false, ite_false]
    rw [if_neg (not_not_intro hmem)]

theorem forall₂_self_map {α : Type _} (f : α → α) (P : α → α → Prop)
    (h : ∀ a, P a (f a)) (l : List α) : List.Forall₂ P l (l.map f) := by
  induction l with
  | nil => exact List.Forall₂.nil
  | cons x xs ih => exact List.Forall₂.cons (h x) ih

theorem harmonizeOne_spec (ann : ClinAnn) :
    (harmonizeOne ann).association ≠ "ambiguous" ∧
    (ann.association = "not associated" → harmonizeOne ann = ann) := by
  obtain ⟨i, e, assoc⟩ := ann
  unfold harmonizeOne
  by_cases h1 : pyLower assoc = "associated" ∨ pyLower assoc = "ambiguous"
  · rw [if_pos h1]
    refine ⟨by show ("supporting" : String) ≠ "ambiguous"; decide, fun ha => ?_⟩
    exfalso
    rw [show assoc = "not associated" from ha] at h1
    revert h1
    decide
  · rw [if_neg h1]
    by_cases h2 : pyLower assoc = "not associated"
    · rw [if_pos h2]
      refine ⟨by show ("not associated" : String) ≠ "ambiguous"; decide,
        fun ha => ?_⟩
      simp [show assoc = "not associated" from ha]
    · rw [if_neg h2]
      by_cases h3 : e ≠ ""
      · rw [if_pos h3]
        refine ⟨by show ("supporting" : String) ≠ "ambiguous"; decide,
          fun ha => absurd ?_ h2⟩
        rw [show assoc = "not associated" from ha]
        decide
      · rw [if_neg h3]
        refine ⟨fun hc => h1 (Or.inr ?_), fun _ => rfl⟩
        rw [show assoc = "ambiguous" from hc]
        decide

/-- C3: whenever the top-level association is established/moderate/emerging/
limited, no harmonized nested association equals "ambiguous" and every
"not associated" annotation is preserved verbatim; when the top-level is
conflicting or unconfirmed, the annotations are returned unmodified. -/
theorem C3_harmonization_consistency (anns : List ClinAnn) (top : String) :
    ((top = "established" ∨ top = "moderate" ∨ top = "emerging" ∨
        top = "limited") →
      List.Forall₂ (fun a b =>
          b.association ≠ "ambiguous" ∧
          (a.association = "not associated" → b = a))
        anns (harmonize_annotation_associations anns top)) ∧
    ((top = "conflicting" ∨ top = "unconfirmed") →
      harmonize_annotation_associations anns top = anns) := by
  constructor
  · intro htop
    have hmem : top ∈ ["established", "moderate", "emerging", "limited"] := by
      rcases htop with h | h | h | h <;> subst h <;> decide
    rw [harmonize_eq_map _ _ hmem]
    exact forall₂_self_map _ _ harmonizeOne_spec anns
  · intro htop
    have hmem : top ∉ ["established", "moderate", "emerging", "limited"] := by
      rcases htop with h | h <;> subst h <;> decide
    cases anns with
    | nil => simp [harmonize_annotation_associations]
    | cons a as =>
      simp only [harmonize_annotation_associations, List.isEmpty_cons,
        Bool.false_eq_true, if_false, ite_false]
      rw [if_pos hmem]

theorem C3_harmonization_consistency_witness :
    List.Forall₂ (fun a b =>
        b.association ≠ "ambiguous" ∧
        (a.association = "not associated" → b = a))
      [ClinAnn.mk "PA4001" "ClinicalAnnotation" "ambiguous"]
      (harmonize_annotation_associations
        [ClinAnn.mk "PA4001" "ClinicalAnnotation" "ambiguous"]
        "established") ∧
    harmonize_annotation_associations
        [ClinAnn.mk "PA4001" "ClinicalAnnotation" "ambiguous"]
        "conflicting" =
      [ClinAnn.mk "PA4001" "ClinicalAnnotation" "ambiguous"] :=
  ⟨(C3_harmonization_consistency _ "established").1 (Or.inl rfl),
   (C3_harmonization_consistency _ "conflicting").2 (Or.inl rfl)⟩

/-! ### C4 / C5 — multi-drug combined scoring
`multi_drug_risk.py` is not present in the repository snapshot; the
aggregation algorithm is modelled from the spec (§4.5) and the documented
algorithm in `backend/IMPLEMENTATION_SUMMARY.md` §3.3. -/

inductive InteractionType where
  | synergistic_toxicity
  | enzyme_inhibition
  | competitive_metabolism
  | additive_risk
  deriving DecidableEq, Repr

inductive Severity where
  | minor
  | moderate
  | major
  | critical
  deriving DecidableEq, Repr

structure DrugDrugInteraction where
  interaction_type : InteractionType
  severity : Severity
  risk_multiplier : ℚ
  confidence_penalty : ℚ

/-- Per-drug inputs to the aggregator: an individual risk score and an
individual confidence. -/
structure DrugRisk where
  risk_score : ℚ
  confidence : ℚ

/-- Python `max` over a non-empty list (0 on the unreachable empty case). -/
def listMax : List ℚ → ℚ
  | [] => 0
  | x :: xs => xs.foldl max x

/-- Python `min` over a non-empty list (0 on the unreachable empty case). -/
def listMin : List ℚ → ℚ
  | [] => 0
  | x :: xs => xs.foldl min x

/-- Modelled from the spec: combined base score
`0.7 × max(individual scores) + 0.3 × average(individual scores)`
(`multi_drug_risk.py` missing from the snapshot). -/
def baseCombinedScore (assessments : List DrugRisk) : ℚ :=
  let scores := assessments.map (·.risk_score)
  (7/10) * listMax scores + (3/10) * (scores.sum / scores.length)

/-- Risk multipliers of the detected synergistic interactions. -/
def synergyMultipliers (interactions : List DrugDrugInteraction) : List ℚ :=
  (interactions.filter fun i =>
    i.interaction_type = InteractionType.synergistic_toxicity).map
    (·.risk_multiplier)

/-- Risk multipliers of the detected inhibitory/competitive interactions. -/
def inhibitoryMultipliers (interactions : List DrugDrugInteraction) :
    List ℚ :=
  (interactions.filter fun i =>
    i.interaction_type = InteractionType.enzyme_inhibition ∨
    i.interaction_type = InteractionType.competitive_metabolism).map
    (·.risk_multiplier)

/-- Modelled from the spec: combined risk score of `multi_drug_risk.py`
(missing from the snapshot): multiply the base by the maximum synergy
multiplier if any synergistic interaction was detected, else by the maximum
inhibitory/competitive multiplier if any, else leave it unmultiplied; clamp
to `[0, 100]`. -/
def combined_risk_score (assessments : List DrugRisk)
    (interactions : List DrugDrugInteraction) : ℚ :=
  let base := baseCombinedScore assessments
  let combined :=
    if synergyMultipliers interactions ≠ [] then
      base * listMax (synergyMultipliers interactions)
    else if inhibitoryMultipliers interactions ≠ [] then
      base * listMax (inhibitoryMultipliers interactions)
    else base
  max 0 (min 100 combined)

/-- Modelled from the spec: combined confidence of `multi_drug_risk.py`
(missing from the snapshot):
`min(individual confidences) − Σ(interaction confidence penalties)`,
clamped to `[0, 1]`. -/
def combined_confidence (assessments : List DrugRisk)
    (interactions : List DrugDrugInteraction) : ℚ :=
  clamp01 (listMin (assessments.map (·.confidence)) -
    (interactions.map (·.confidence_penalty)).sum)

/-- The documented per-severity confidence penalties: minor 0.05,
moderate 0.10, major 0.15, critical 0.20-0.30. -/
def severityPenaltyOk (i : DrugDrugInteraction) : Prop :=
  match i.severity with
  | Severity.minor => i.confidence_penalty = 1/20
  | Severity.moderate => i.confidence_penalty = 1/10
  | Severity.major => i.confidence_penalty = 3/20
  | Severity.critical => 1/5 ≤ i.confidence_penalty ∧
      i.confidence_penalty ≤ 3/10

/-- C4: the combined risk score is the 0.7·max + 0.3·average base, multiplied
by the maximum synergy multiplier when a synergistic interaction was detected,
else by the maximum inhibitory/competitive multiplier when one was detected,
else unmultiplied, and clamped to `[0, 100]`. -/
theorem C4_combined_risk_score (assessments : List DrugRisk)
    (interactions : List DrugDrugInteraction) (h : assessments ≠ []) :
    (synergyMultipliers interactions ≠ [] →
      combined_risk_score assessments interactions =
        max 0 (min 100 (baseCombinedScore assessments *
          listMax (synergyMultipliers interactions)))) ∧
    (synergyMultipliers interactions = [] →
      inhibitoryMultipliers interactions ≠ [] →
      combined_risk_score assessments interactions =
        max 0 (min 100 (baseCombinedScore assessments *
          listMax (inhibitoryMultipliers interactions)))) ∧
    (synergyMultipliers interactions = [] →
      inhibitoryMultipliers interactions = [] →
      combined_risk_score assessments interactions =
        max 0 (min 100 (baseCombinedScore assessments))) ∧
    0 ≤ combined_risk_score assessments interactions ∧
    combined_risk_score assessments interactions ≤ 100 := by
  refine ⟨fun hs => ?_, fun hs hi => ?_, fun hs hi => ?_,
    le_max_left _ _, max_le (by norm_num) (min_le_left _ _)⟩
  · simp only [combined_risk_score]
    rw [if_pos hs]
  · simp only [combined_risk_score]
    rw [if_neg (not_not_intro hs), if_pos hi]
  · simp only [combined_risk_score]
    rw [if_neg (not_not_intro hs), if_neg (not_not_intro hi)]

theorem C4_combined_risk_score_witness :
    combined_risk_score [⟨80, 9/10⟩, ⟨40, 8/10⟩]
        [⟨InteractionType.synergistic_toxicity, Severity.critical, 3, 1/4⟩] =
      max 0 (min 100 (baseCombinedScore [⟨80, 9/10⟩, ⟨40, 8/10⟩] * listMax
        (synergyMultipliers
          [⟨InteractionType.synergistic_toxicity, Severity.critical,
            3, 1/4⟩]))) :=
  (C4_combined_risk_score _ _ (by simp)).1 (by decide)

/-- C5: the combined confidence is `min(individual confidences)` minus the sum
of the interaction confidence penalties, clamped to `[0, 1]`; with the
documented per-severity penalties it never exceeds the clamped minimum
individual confidence, and both combined outputs stay in range. -/
theorem C5_combined_confidence (assessments : List DrugRisk)
    (interactions : List DrugDrugInteraction) (h : assessments ≠ []) :
    combined_confidence assessments interactions =
      clamp01 (listMin (assessments.map (·.confidence)) -
        (interactions.map (·.confidence_penalty)).sum) ∧
    0 ≤ combined_confidence assessments interactions ∧
    combined_confidence assessments interactions ≤ 1 ∧
    ((∀ i ∈ interactions, severityPenaltyOk i) →
      combined_confidence assessments interactions ≤
        clamp01 (listMin (assessments.map (·.confidence)))) ∧
    0 ≤ combined_risk_score assessments interactions ∧
    combined_risk_score assessments interactions ≤ 100 := by
  refine ⟨rfl, le_max_left _ _, max_le (by norm_num) (min_le_left _ _),
    fun hp => ?_, le_max_left _ _, max_le (by norm_num) (min_le_left _ _)⟩
  have hsum : 0 ≤ (interactions.map (·.confidence_penalty)).sum := by
    apply List.sum_nonneg
    intro x hx
    obtain ⟨i, hi, rfl⟩ := List.mem_map.mp hx
    have := hp i hi
    unfold severityPenaltyOk at this
    rcases hsev : i.severity <;> rw [hsev] at this <;>
      first
        | (rw [this]; norm_num)
        | (rcases this with ⟨h1, _⟩; linarith)
  unfold combined_confidence clamp01
  have : listMin (assessments.map (·.confidence)) -
      (interactions.map (·.confidence_penalty)).sum ≤
      listMin (assessments.map (·.confidence)) := by linarith
  exact max_le (le_max_left _ _)
    (le_max_of_le_right (le_min (min_le_left _ _)
      (le_trans (min_le_right _ _) this)))

theorem C5_combined_confidence_witness :
    combined_confidence [⟨80, 9/10⟩] [] =
      clamp01 (listMin (([⟨80, 9/10⟩] : List DrugRisk).map (·.confidence)) -
        (([] : List DrugDrugInteraction).map (·.confidence_penalty)).sum) ∧
    0 ≤ combined_confidence [⟨80, 9/10⟩] [] :=
  ⟨(C5_combined_confidence [⟨80, 9/10⟩] [] (by simp)).1,
   (C5_combined_confidence [⟨80, 9/10⟩] [] (by simp)).2.1⟩

/-! ### C6 — feedback learning update
`feedback_learning.py` is not present in the repository snapshot; the update
rule is modelled from the spec (§4.6) and the documented algorithm in
`backend/IMPLEMENTATION_SUMMARY.md` §2.2 (α = 0.1, β = 0.95, bounds
`[0.80, 1.50]`, max delta ±0.10). -/

/-- Modelled from the spec: one clinical-correction update of the stored
prior for a (gene, diplotype) key.  `signal = 1 + q·0.1`,
`decayed_prior = 1 + (current − 1)·0.95^months`,
`new_prior = 0.1·signal + 0.9·decayed_prior`, clamped to `[0.80, 1.50]`,
then the change from `current` is capped to ±0.10. -/
def updatePrior (current_prior q : ℚ) (months : ℕ) : ℚ :=
  let signal := 1 + q * (1/10)
  let decayed_prior := 1 + (current_prior - 1) * (19/20) ^ months
  let new_prior := (1/10) * signal + (9/10) * decayed_prior
  let clamped := max (4/5) (min (3/2) new_prior)
  max (current_prior - 1/10) (min (current_prior + 1/10) clamped)

/-- A finite sequence of feedback updates applied to one key. -/
def applyFeedback (p0 : ℚ) (events : List (ℚ × ℕ)) : ℚ :=
  events.foldl (fun p e => updatePrior p e.1 e.2) p0

theorem updatePrior_bounds {current : ℚ} (q : ℚ) (months : ℕ)
    (h0 : 4/5 ≤ current) (h1 : current ≤ 3/2) :
    4/5 ≤ updatePrior current q months ∧ updatePrior current q months ≤ 3/2 := by
  unfold updatePrior
  constructor
  · refine le_max_of_le_right (le_min (by linarith) (le_max_left _ _))
  · exact max_le (by linarith)
      (le_trans (min_le_right _ _)
        (max_le (by norm_num) (min_le_left _ _)))

theorem applyFeedback_bounds (events : List (ℚ × ℕ)) {p0 : ℚ}
    (h0 : 4/5 ≤ p0) (h1 : p0 ≤ 3/2) :
    4/5 ≤ applyFeedback p0 events ∧ applyFeedback p0 events ≤ 3/2 := by
  induction events generalizing p0 with
  | nil => exact ⟨h0, h1⟩
  | cons e es ih =>
    have hb := updatePrior_bounds e.1 e.2 h0 h1
    exact ih hb.1 hb.2

/-- C6: one update computes exactly the documented signal/decay/EMA formula
with clamping to `[0.80, 1.50]` and a ±0.10 delta cap; each update moves the
prior by at most 0.10 in magnitude, keeps it in `[0.80, 1.50]`, and any
finite sequence of updates starting in `[0.80, 1.50]` stays in
`[0.80, 1.50]`. -/
theorem C6_feedback_prior_invariant (current q : ℚ) (months : ℕ)
    (p0 : ℚ) (events : List (ℚ × ℕ)) (hq0 : 0 ≤ q) (hq1 : q ≤ 1)
    (hp0 : 4/5 ≤ p0) (hp1 : p0 ≤ 3/2) :
    updatePrior current q months =
      max (current - 1/10) (min (current + 1/10)
        (max (4/5) (min (3/2)
          ((1/10) * (1 + q * (1/10)) +
           (9/10) * (1 + (current - 1) * (19/20) ^ months))))) ∧
    |updatePrior current q months - current| ≤ 1/10 ∧
    (4/5 ≤ current → current ≤ 3/2 →
      4/5 ≤ updatePrior current q months ∧
      updatePrior current q months ≤ 3/2) ∧
    4/5 ≤ applyFeedback p0 events ∧ applyFeedback p0 events ≤ 3/2 := by
  refine ⟨rfl, ?_, fun h0 h1 => updatePrior_bounds q months h0 h1,
    applyFeedback_bounds events hp0 hp1⟩
  have hub : updatePrior current q months ≤ current + 1/10 := by
    unfold updatePrior
    exact max_le (by linarith) (min_le_left _ _)
  have hlb : current - 1/10 ≤ updatePrior current q months := by
    unfold updatePrior
    exact le_max_left _ _
  rw [abs_le]
  constructor <;> linarith

theorem C6_feedback_prior_invariant_witness :
    |updatePrior 1 1 0 - 1| ≤ 1/10 ∧
    4/5 ≤ applyFeedback 1 [(1, 0)] ∧ applyFeedback 1 [(1, 0)] ≤ 3/2 :=
  ⟨(C6_feedback_prior_invariant 1 1 0 1 [(1, 0)] (by norm_num) (by norm_num)
      (by norm_num) (by norm_num)).2.1,
   (C6_feedback_prior_invariant 1 1 0 1 [(1, 0)] (by norm_num) (by norm_num)
      (by norm_num) (by norm_num)).2.2.2⟩

/-! ### C7 / C8 — diplotype resolution
`phenotype_mapper.py` is not present in the repository snapshot; the
resolver is modelled from the spec (§4.1) and the documented algorithm in
`src/unnamed/part_003` ("Diplotype Resolution Logic": HET = 1, HOM_ALT = 2,
homozygous → `*X/*X`, single allele → `*1/*X`, two alleles → trans compound
heterozygote) and `FINAL_IMPROVEMENTS.md` (population-informed phasing). -/

inductive Zygosity where
  | HET
  | HOM_REF
  | HOM_ALT
  deriving DecidableEq, Repr

structure VariantCall where
  position : ℕ
  zygosity : Zygosity
  phase_set : Option ℕ
  haplotype_index : Option ℕ
  deriving DecidableEq

structure GenotypeData where
  gene_symbol : String
  variants : List VariantCall

structure AlleleDefinition where
  allele : String
  defining_positions : List ℕ
  deriving DecidableEq

structure DiplotypeResult where
  gene : String
  diplotype : String
  phenotype : String
  confidence : ℚ
  indeterminate : Bool
  note : String
  deriving DecidableEq

/-- The first observed variant at a genomic position, if any. -/
def variantAt (g : GenotypeData) (p : ℕ) : Option VariantCall :=
  g.variants.find? (fun v => v.position == p)

/-- Modelled from the spec: match score of one allele definition — a defining
position present as HET contributes 1, as HOM_ALT contributes 2. -/
def alleleMatchScore (g : GenotypeData) (ad : AlleleDefinition) : ℕ :=
  (ad.defining_positions.map fun p =>
    match variantAt g p with
    | some v =>
      match v.zygosity with
      | Zygosity.HET => 1
      | Zygosity.HOM_ALT => 2
      | Zygosity.HOM_REF => 0
    | none => 0).sum

/-- Candidate alleles: definitions with a positive match score. -/
def candidateAlleles (defs : List AlleleDefinition) (g : GenotypeData) :
    List (AlleleDefinition × ℕ) :=
  (defs.map fun d => (d, alleleMatchScore g d)).filter (fun c => 0 < c.2)

/-- Modelled from the spec: the static diplotype → phenotype map (part_003:
`*1/*1 -> NM`; a null/null diplotype is a poor metabolizer, wildtype plus one
reduced allele an intermediate one). -/
def phenotypeTable : List (String × String) :=
  [("*1/*1", "NM"), ("*1/*4", "IM"), ("*4/*4", "PM"),
   ("*1/*2", "IM"), ("*2/*2", "PM"), ("*2/*3", "PM")]

/-- Diplotype → phenotype lookup; `Indeterminate` on a miss. -/
def phenotypeFor (diplotype : String) : String :=
  match phenotypeTable.lookup diplotype with
  | some ph => ph
  | none => "Indeterminate"

/-- Both variants carry equal phase-set identifiers. -/
def samePhaseSet (g : GenotypeData) : Bool :=
  match g.variants with
  | v1 :: v2 :: _ => v1.phase_set.isSome && v1.phase_set == v2.phase_set
  | _ => false

/-- Haplotype index equality of the first two variants. -/
def sameHaplotypeIndex (g : GenotypeData) : Bool :=
  match g.variants with
  | v1 :: v2 :: _ =>
    v1.haplotype_index.isSome && v1.haplotype_index == v2.haplotype_index
  | _ => false

/-- Modelled from the spec: the diplotype selection policy of §4.1.
Zero variants → homozygous reference `*1/*1` with confidence unaffected;
one candidate with score ≥ 2 → homozygous; one candidate with score 1 →
paired with the reference allele; two score-1 candidates → compound
heterozygote, trans by default, overridden to cis only by an equal phase set
with equal haplotype indices; otherwise indeterminate. -/
def resolveDiplotype (defs : List AlleleDefinition) (g : GenotypeData)
    (baseConfidence : ℚ) : DiplotypeResult :=
  if g.variants.isEmpty then
    { gene := g.gene_symbol, diplotype := "*1/*1",
      phenotype := phenotypeFor "*1/*1", confidence := baseConfidence,
      indeterminate := false, note := "" }
  else
    match candidateAlleles defs g with
    | [] =>
      { gene := g.gene_symbol, diplotype := "Indeterminate",
        phenotype := "Indeterminate", confidence := 0,
        indeterminate := true, note := "novel_variants" }
    | [(a, s)] =>
      if 2 ≤ s then
        { gene := g.gene_symbol, diplotype := a.allele ++ "/" ++ a.allele,
          phenotype := phenotypeFor (a.allele ++ "/" ++ a.allele),
          confidence := baseConfidence, indeterminate := false,
          note := "Homozygous variant" }
      else
        { gene := g.gene_symbol, diplotype := "*1/" ++ a.allele,
          phenotype := phenotypeFor ("*1/" ++ a.allele),
          confidence := baseConfidence, indeterminate := false,
          note := "Heterozygous with wildtype" }
    | [(a, sa), (b, sb)] =>
      if sa = 1 ∧ sb = 1 then
        if samePhaseSet g then
          if sameHaplotypeIndex g then
            { gene := g.gene_symbol, diplotype := "*1/" ++ a.allele ++ "+" ++
                b.allele,
              phenotype := phenotypeFor ("*1/" ++ a.allele ++ "+" ++ b.allele),
              confidence := baseConfidence, indeterminate := false,
              note := "Compound variants in cis (phased)" }
          else
            { gene := g.gene_symbol, diplotype := a.allele ++ "/" ++ b.allele,
              phenotype := phenotypeFor (a.allele ++ "/" ++ b.allele),
              confidence := baseConfidence, indeterminate := false,
              note := "Compound heterozygote (trans, phased)" }
        else
          { gene := g.gene_symbol, diplotype := a.allele ++ "/" ++ b.allele,
            phenotype := phenotypeFor (a.allele ++ "/" ++ b.allele),
            confidence := baseConfidence * (9/10), indeterminate := false,
            note := "Compound heterozygote (trans assumed)" }
      else if sa ≠ sb then
        let top := if sb < sa then (a, sa) else (b, sb)
        if 2 ≤ top.2 then
          { gene := g.gene_symbol,
            diplotype := top.1.allele ++ "/" ++ top.1.allele,
            phenotype := phenotypeFor (top.1.allele ++ "/" ++ top.1.allele),
            confidence := baseConfidence, indeterminate := false,
            note := "Homozygous variant" }
        else
          { gene := g.gene_symbol, diplotype := "*1/" ++ top.1.allele,
            phenotype := phenotypeFor ("*1/" ++ top.1.allele),
            confidence := baseConfidence, indeterminate := false,
            note := "Heterozygous with wildtype" }
      else
        { gene := g.gene_symbol, diplotype := "Indeterminate",
          phenotype := "Indeterminate", confidence := 0,
          indeterminate := true, note := "ambiguous" }
    | _ =>
      { gene := g.gene_symbol, diplotype := "Indeterminate",
        phenotype := "Indeterminate", confidence := 0,
        indeterminate := true, note := "ambiguous" }

/-- Modelled from the spec: population-informed phasing check of
`FINAL_IMPROVEMENTS.md` — when phase is unknown and both allele frequencies
are available, compare the Hardy-Weinberg trans probability `2·fA·fB` to the
homozygous cis alternatives `fA²`, `fB²`; only the note (and, in the
consistent case, the confidence) is adjusted — never the resolved
diplotype. -/
def populationAdjust (res : DiplotypeResult) (alleleA alleleB : String)
    (pop : String → Option ℚ) (phaseKnown : Bool) : DiplotypeResult :=
  if phaseKnown then res
  else
    match pop alleleA, pop alleleB with
    | some fa, some fb =>
      let transProb := 2 * fa * fb
      let cisProb := max (fa * fa) (fb * fb)
      if transProb < cisProb then
        { res with
          note := res.note ++ " (trans assumed, cis may be more common)" }
      else
        { res with
          note := res.note ++ " (trans assumed, pop. freq. consistent)",
          confidence := res.confidence * (21/20) }
    | _, _ => res

theorem populationAdjust_preserves_diplotype (res : DiplotypeResult)
    (aA aB : String) (pop : String → Option ℚ) (pk : Bool) :
    (populationAdjust res aA aB pop pk).diplotype = res.diplotype := by
  unfold populationAdjust
  split
  · rfl
  · split
    · dsimp only
      split <;> rfl
    · rfl

/-- C7: with zero variants the resolver returns the homozygous-reference
diplotype `*1/*1`, the normal-metabolizer phenotype, an unchanged confidence
and no indeterminate flag. -/
theorem C7_zero_variants_homref (defs : List AlleleDefinition)
    (g : GenotypeData) (c : ℚ) (h : g.variants = []) :
    (resolveDiplotype defs g c).diplotype = "*1/*1" ∧
    (resolveDiplotype defs g c).phenotype = "NM" ∧
    (resolveDiplotype defs g c).confidence = c ∧
    (resolveDiplotype defs g c).indeterminate = false := by
  have he : g.variants.isEmpty = true := by rw [h]; rfl
  unfold resolveDiplotype
  rw [if_pos he]
  refine ⟨rfl, ?_, rfl, rfl⟩
  show phenotypeFor "*1/*1" = "NM"
  decide

theorem C7_zero_variants_homref_witness :
    (resolveDiplotype [] ⟨"CYP2C9", []⟩ 1).diplotype = "*1/*1" ∧
    (resolveDiplotype [] ⟨"CYP2C9", []⟩ 1).phenotype = "NM" :=
  ⟨(C7_zero_variants_homref [] ⟨"CYP2C9", []⟩ 1 rfl).1,
   (C7_zero_variants_homref [] ⟨"CYP2C9", []⟩ 1 rfl).2.1⟩

/-- C8: an unphased compound heterozygote (two distinct score-1 candidates)
resolves to the trans diplotype by default, and the population-frequency
comparison never alters the resolved diplotype — when the homozygous cis
alternative is more probable than trans, only the free-text note is
annotated. -/
theorem C8_trans_default_population_preserves
    (defs : List AlleleDefinition) (g : GenotypeData) (c : ℚ)
    (a b : AlleleDefinition) (res : DiplotypeResult) (aA aB : String)
    (pop : String → Option ℚ) (pk : Bool) (fa fb : ℚ)
    (hne : g.variants ≠ [])
    (hc : candidateAlleles defs g = [(a, 1), (b, 1)])
    (hp : samePhaseSet g = false)
    (hfa : pop aA = some fa) (hfb : pop aB = some fb)
    (hcis : 2 * fa * fb < max (fa * fa) (fb * fb)) :
    (resolveDiplotype defs g c).diplotype = a.allele ++ "/" ++ b.allele ∧
    (resolveDiplotype defs g c).note = "Compound heterozygote (trans assumed)" ∧
    (resolveDiplotype defs g c).indeterminate = false ∧
    (populationAdjust res aA aB pop pk).diplotype = res.diplotype ∧
    populationAdjust res aA aB pop false =
      { res with
        note := res.note ++ " (trans assumed, cis may be more common)" } := by
  have he : ¬(g.variants.isEmpty = true) := by
    cases hv : g.variants with
    | nil => exact absurd hv hne
    | cons x xs => simp
  refine ⟨?_, ?_, ?_, populationAdjust_preserves_diplotype res aA aB pop pk, ?_⟩
  · unfold resolveDiplotype
    rw [if_neg he, hc]
    simp [hp]
  · unfold resolveDiplotype
    rw [if_neg he, hc]
    simp [hp]
  · unfold resolveDiplotype
    rw [if_neg he, hc]
    simp [hp]
  · unfold populationAdjust
    rw [if_neg (by simp), hfa, hfb]
    simp only []
    rw [if_pos hcis]

theorem C8_trans_default_population_preserves_witness :
    (resolveDiplotype [⟨"*4", [100]⟩, ⟨"*17", [200]⟩]
        ⟨"CYP2D6", [⟨100, Zygosity.HET, none, none⟩,
          ⟨200, Zygosity.HET, none, none⟩]⟩ 1).diplotype = "*4/*17" ∧
    populationAdjust
        ⟨"CYP2D6", "*10/*36", "IM", 1/2, false, "note"⟩ "*10" "*36"
        (fun s => if s = "*10" then some (1/2) else some (1/20)) false =
      ⟨"CYP2D6", "*10/*36", "IM", 1/2, false,
        "note (trans assumed, cis may be more common)"⟩ :=
  ⟨(C8_trans_default_population_preserves
      [⟨"*4", [100]⟩, ⟨"*17", [200]⟩]
      ⟨"CYP2D6", [⟨100, Zygosity.HET, none, none⟩,
        ⟨200, Zygosity.HET, none, none⟩]⟩ 1
      ⟨"*4", [100]⟩ ⟨"*17", [200]⟩
      ⟨"CYP2D6", "*10/*36", "IM", 1/2, false, "note"⟩ "*10" "*36"
      (fun s => if s = "*10" then some (1/2) else some (1/20)) false
      (1/2) (1/20) (by decide) (by decide) (by decide)
      (by rfl) (by rfl) (by norm_num)).1,
   (C8_trans_default_population_preserves
      [⟨"*4", [100]⟩, ⟨"*17", [200]⟩]
      ⟨"CYP2D6", [⟨100, Zygosity.HET, none, none⟩,
        ⟨200, Zygosity.HET, none, none⟩]⟩ 1
      ⟨"*4", [100]⟩ ⟨"*17", [200]⟩
      ⟨"CYP2D6", "*10/*36", "IM", 1/2, false, "note"⟩ "*10" "*36"
      (fun s => if s = "*10" then some (1/2) else some (1/20)) false
      (1/2) (1/20) (by decide) (by decide) (by decide)
      (by rfl) (by rfl) (by norm_num)).2.2.2.2⟩

/-! ### C9 — `App.handleAnalyze` (frontend/src/App.jsx, lines 44-69)
Each selected drug's request is awaited independently; a rejected promise is
converted into a per-drug error record.  The per-drug outcome of
`analyzeVCF(vcfFile, drug)` is modelled as an `Except`: `ok` carries the
response data, `error` the message `err.response?.data?.detail` or the
fallback text. -/

structure DrugResult where
  drug : String
  data : Option String
  error : Option String

structure AnalyzeOutcome where
  results : List DrugResult
  errorMsg : Option String

/-- One entry of `allResults`: the try/catch body of the mapped promise. -/
def mkDrugResult (outcome : String → Except String String)
    (drug : String) : DrugResult :=
  match outcome drug with
  | Except.ok d => { drug := drug, data := some d, error := none }
  | Except.error e => { drug := drug, data := none, error := some e }

/-- Whether the request for one drug succeeded. -/
def outcomeOk (outcome : String → Except String String)
    (drug : String) : Bool :=
  match outcome drug with
  | Except.ok _ => true
  | Except.error _ => false

/-- The per-drug error message (only meaningful on failure). -/
def errOf (outcome : String → Except String String) (drug : String) : String :=
  match outcome drug with
  | Except.ok _ => ""
  | Except.error e => e

/-- `App.handleAnalyze`: map the drugs to settled results, keep the
successes as rendered results, and derive the displayed error message from
the failures. -/
def handleAnalyze (outcome : String → Except String String)
    (selectedDrugs : List String) : AnalyzeOutcome :=
  let allResults := selectedDrugs.map (mkDrugResult outcome)
  let successes := allResults.filter (fun r => r.data.isSome)
  let failures := allResults.filter (fun r => r.error.isSome)
  let errorMsg :=
    if 0 < failures.length ∧ successes.length = 0 then
      some (String.intercalate "\n" (failures.map (fun f => f.error.getD "")))
    else if 0 < failures.length then
      some ("Some analyses failed: " ++
        String.intercalate ", " (failures.map (·.drug)))
    else none
  { results := successes, errorMsg := errorMsg }

theorem mkDrugResult_data_isSome (o : String → Except String String)
    (d : String) : (mkDrugResult o d).data.isSome = outcomeOk o d := by
  unfold mkDrugResult outcomeOk
  cases o d <;> rfl

theorem mkDrugResult_error_isSome (o : String → Except String String)
    (d : String) : (mkDrugResult o d).error.isSome = !outcomeOk o d := by
  unfold mkDrugResult outcomeOk
  cases o d <;> rfl

theorem mkDrugResult_drug (o : String → Except String String)
    (d : String) : (mkDrugResult o d).drug = d := by
  unfold mkDrugResult
  cases o d <;> rfl

theorem mkDrugResult_errMsg (o : String → Except String String)
    (d : String) : (mkDrugResult o d).error.getD "" = errOf o d := by
  unfold mkDrugResult errOf
  cases o d <;> rfl

theorem handleAnalyze_successes (o : String → Except String String)
    (ds : List String) :
    (ds.map (mkDrugResult o)).filter (fun r => r.data.isSome) =
      (ds.filter (fun d => outcomeOk o d)).map (mkDrugResult o) := by
  rw [List.filter_map]
  congr 1
  apply List.filter_congr
  intro d _
  exact mkDrugResult_data_isSome o d

theorem handleAnalyze_failures (o : String → Except String String)
    (ds : List String) :
    (ds.map (mkDrugResult o)).filter (fun r => r.error.isSome) =
      (ds.filter (fun d => !outcomeOk o d)).map (mkDrugResult o) := by
  rw [List.filter_map]
  congr 1
  apply List.filter_congr
  intro d _
  exact mkDrugResult_error_isSome o d

theorem list_map_id_of {α : Type _} (l : List α) (f : α → α)
    (h : ∀ a ∈ l, f a = a) : l.map f = l := by
  induction l with
  | nil => rfl
  | cons x xs ih =>
    rw [List.map_cons, h x (by simp), ih (fun a ha => h a (by simp [ha]))]

theorem list_map_congr {α β : Type _} (l : List α) (f g : α → β)
    (h : ∀ a ∈ l, f a = g a) : l.map f = l.map g := by
  induction l with
  | nil => rfl
  | cons x xs ih =>
    rw [List.map_cons, List.map_cons, h x (by simp),
      ih (fun a ha => h a (by simp [ha]))]

/-- C9: a failed drug request never discards the other drugs' results — the
rendered results are exactly the successful drugs' results; when some but not
all drugs fail the displayed error lists exactly the failed drug names; when
all fail it is the newline-concatenation of all per-drug error messages; and
no error is shown when nothing failed. -/
theorem C9_multi_drug_error_isolation (o : String → Except String String)
    (ds : List String) :
    (handleAnalyze o ds).results =
      (ds.filter (fun d => outcomeOk o d)).map (mkDrugResult o) ∧
    (∀ r ∈ (handleAnalyze o ds).results, r.data.isSome = true) ∧
    ((∃ d ∈ ds, outcomeOk o d = true) → (∃ d ∈ ds, outcomeOk o d = false) →
      (handleAnalyze o ds).errorMsg =
        some ("Some analyses failed: " ++
          String.intercalate ", " (ds.filter (fun d => !outcomeOk o d)))) ∧
    ((∀ d ∈ ds, outcomeOk o d = false) → ds ≠ [] →
      (handleAnalyze o ds).errorMsg =
        some (String.intercalate "\n" (ds.map (fun d => errOf o d)))) ∧
    ((∀ d ∈ ds, outcomeOk o d = true) →
      (handleAnalyze o ds).errorMsg = none) := by
  have hs : (handleAnalyze o ds).results =
      (ds.filter (fun d => outcomeOk o d)).map (mkDrugResult o) := by
    simp only [handleAnalyze]
    exact handleAnalyze_successes o ds
  refine ⟨hs, ?_, ?_, ?_, ?_⟩
  · intro r hr
    rw [hs] at hr
    obtain ⟨d, hd, rfl⟩ := List.mem_map.mp hr
    rw [mkDrugResult_data_isSome]
    exact (List.mem_filter.mp hd).2
  · intro h1 h2
    obtain ⟨dS, hdS, hdSok⟩ := h1
    obtain ⟨dF, hdF, hdFbad⟩ := h2
    have hfail_ne : ds.filter (fun d => !outcomeOk o d) ≠ [] := by
      intro hnil
      have hm : dF ∈ ds.filter (fun d => !outcomeOk o d) :=
        List.mem_filter.mpr ⟨hdF, by rw [hdFbad]; rfl⟩
      rw [hnil] at hm
      exact absurd hm (List.not_mem_nil _)
    have hsucc_ne : ds.filter (fun d => outcomeOk o d) ≠ [] := by
      intro hnil
      have hm : dS ∈ ds.filter (fun d => outcomeOk o d) :=
        List.mem_filter.mpr ⟨hdS, hdSok⟩
      rw [hnil] at hm
      exact absurd hm (List.not_mem_nil _)
    simp only [handleAnalyze]
    rw [handleAnalyze_failures o ds, handleAnalyze_successes o ds]
    simp only [List.length_map]
    rw [if_neg (fun hcond => hsucc_ne (List.length_eq_zero.mp hcond.2)),
      if_pos (List.length_pos.mpr hfail_ne), List.map_map]
    have hm : List.map ((fun x => x.drug) ∘ mkDrugResult o)
        (List.filter (fun d => !outcomeOk o d) ds) =
        List.filter (fun d => !outcomeOk o d) ds :=
      list_map_id_of _ _ (fun a _ => mkDrugResult_drug o a)
    rw [hm]
  · intro h hne
    have hall : ds.filter (fun d => !outcomeOk o d) = ds :=
      List.filter_eq_self.mpr (fun a ha => by rw [h a ha]; rfl)
    have hok : ds.filter (fun d => outcomeOk o d) = [] :=
      List.filter_eq_nil_iff.mpr (fun a ha => by simp [h a ha])
    simp only [handleAnalyze]
    rw [handleAnalyze_failures o ds, handleAnalyze_successes o ds, hall, hok]
    simp only [List.length_map, List.map_nil, List.length_nil]
    rw [if_pos ⟨List.length_pos.mpr hne, trivial⟩, List.map_map]
    have hm : List.map ((fun f => f.error.getD "") ∘ mkDrugResult o) ds =
        List.map (fun d => errOf o d) ds :=
      list_map_congr _ _ _ (fun a _ => mkDrugResult_errMsg o a)
    rw [hm]
  · intro h
    have hfail : ds.filter (fun d => !outcomeOk o d) = [] :=
      List.filter_eq_nil_iff.mpr (fun a ha => by simp [h a ha])
    simp only [handleAnalyze]
    rw [handleAnalyze_failures o ds, hfail]
    simp

theorem C9_multi_drug_error_isolation_witness :
    (handleAnalyze
      (fun d => if d = "CODEINE" then Except.ok "assessment"
        else Except.error "Analysis failed for WARFARIN.")
      ["CODEINE", "WARFARIN"]).errorMsg =
      some ("Some analyses failed: " ++
        String.intercalate ", " (["CODEINE", "WARFARIN"].filter
          (fun d => !outcomeOk
            (fun d => if d = "CODEINE" then Except.ok "assessment"
              else Except.error "Analysis failed for WARFARIN.") d))) :=
  (C9_multi_drug_error_isolation
    (fun d => if d = "CODEINE" then Except.ok "assessment"
      else Except.error "Analysis failed for WARFARIN.")
    ["CODEINE", "WARFARIN"]).2.2.1
    ⟨"CODEINE", by simp, by decide⟩
    ⟨"WARFARIN", by simp, by decide⟩

/-! ### C10 — `UploadZone.onDrop` (frontend/src/components/UploadZone.jsx,
lines 8-24)
The dropzone is configured with `accept: .vcf`, `maxSize: 5 MB` and
`multiple: false`, so the library places any non-`.vcf`, oversized or extra
files into `rejectedFiles`.  The handler is modelled as a state transition
returning the new component state and the list of files passed to
`onFileSelected`; the unreachable both-lists-empty case (where the JS code
would dereference `undefined`) is `none`. -/

structure DropFile where
  name : String

structure UploadState where
  fileName : Option String
  uploadError : Option String

/-- The error text shown for a rejected drop. -/
def invalidFileMsg : String :=
  "Invalid file. Please upload a .vcf file under 5MB."

/-- `UploadZone.onDrop`: clear the error, reject invalid drops with an error
message and no callback, otherwise record the first accepted file and invoke
`onFileSelected` with it. -/
def onDrop (s : UploadState) (acceptedFiles rejectedFiles : List DropFile) :
    Option (UploadState × List DropFile) :=
  let s1 := { s with uploadError := none }
  if 0 < rejectedFiles.length then
    some ({ s1 with uploadError := some invalidFileMsg }, [])
  else
    match acceptedFiles with
    | [] => none
    | f :: _ =>
      some ({ fileName := some f.name, uploadError := none }, [f])

/-- C10: a drop with a non-empty rejected list never invokes
`onFileSelected`, leaves the selected file name unchanged and shows the error
message; the handler's result never depends on a previously shown error
(it is cleared at the start of each drop); and a valid drop stores the file
and shows no error. -/
theorem C10_upload_rejection (s : UploadState)
    (acceptedFiles rejectedFiles : List DropFile) :
    (rejectedFiles ≠ [] →
      onDrop s acceptedFiles rejectedFiles =
        some ({ fileName := s.fileName,
                uploadError := some invalidFileMsg }, [])) ∧
    (∀ e, onDrop { s with uploadError := e } acceptedFiles rejectedFiles =
      onDrop s acceptedFiles rejectedFiles) ∧
    (∀ f fs, rejectedFiles = [] → acceptedFiles = f :: fs →
      onDrop s acceptedFiles rejectedFiles =
        some ({ fileName := some f.name, uploadError := none }, [f])) := by
  refine ⟨fun hr => ?_, fun e => ?_, fun f fs hr ha => ?_⟩
  · unfold onDrop
    rw [if_pos (List.length_pos.mpr hr)]
  · unfold onDrop
    rfl
  · unfold onDrop
    rw [hr, ha]
    rfl

theorem C10_upload_rejection_witness :
    onDrop ⟨some "old.vcf", none⟩ [] [⟨"too-big.vcf"⟩] =
      some (⟨some "old.vcf", some invalidFileMsg⟩, []) ∧
    onDrop ⟨none, some "stale error"⟩ [⟨"ok.vcf"⟩] [] =
      onDrop ⟨none, none⟩ [⟨"ok.vcf"⟩] [] ∧
    onDrop ⟨none, none⟩ [⟨"ok.vcf"⟩] [] =
      some (⟨some "ok.vcf", none⟩, [⟨"ok.vcf"⟩]) :=
  ⟨(C10_upload_rejection ⟨some "old.vcf", none⟩ [] [⟨"too-big.vcf"⟩]).1
      (by simp),
   (C10_upload_rejection ⟨none, none⟩ [⟨"ok.vcf"⟩] []).2.1 (some "stale error"),
   (C10_upload_rejection ⟨none, none⟩ [⟨"ok.vcf"⟩] []).2.2 ⟨"ok.vcf"⟩ [] rfl
      rfl⟩

end PharmaGuard
